import Mathlib

/-!
# PrintingTools macOS bridge: verification development

The repository ships a declaration-only C ABI surface,
`src/PrintingTools.MacOS/native/OSX/PrintingToolsMacBridge.h`.  This file
embeds that ABI surface (function names, return types, parameter types)
directly from the header, and models the behaviour of the orchestration
layer behind it from the design specification, since the implementation
translation unit is not part of the source snapshot.
-/

namespace PrintingTools

/-- The C types that appear in `PrintingToolsMacBridge.h`. -/
inductive CType where
  | void
  | voidPtr
  | constVoidPtr
  | cint
  | cdouble
deriving DecidableEq

/-- One function declaration of the bridge header: its name, return type
and parameter types, in order. -/
structure FunDecl where
  name : String
  ret : CType
  params : List CType
deriving DecidableEq

/-- The 21 declarations of `PrintingToolsMacBridge.h`, transcribed line by
line (lines 7-27 of the header). -/
def bridgeDecls : List FunDecl := [
  ⟨"PrintingTools_CreatePrintOperation", .voidPtr, [.voidPtr]⟩,
  ⟨"PrintingTools_DisposePrintOperation", .void, [.voidPtr]⟩,
  ⟨"PrintingTools_BeginPreview", .void, [.voidPtr]⟩,
  ⟨"PrintingTools_CommitPrint", .void, [.voidPtr]⟩,
  ⟨"PrintingTools_ShowPrintPanel", .cint, [.voidPtr, .constVoidPtr]⟩,
  ⟨"PrintingTools_ShowPrintPanelSheet", .cint, [.voidPtr, .voidPtr, .constVoidPtr]⟩,
  ⟨"PrintingTools_ShowPageLayout", .cint, [.voidPtr, .constVoidPtr]⟩,
  ⟨"PrintingTools_GetPrintInfo", .cint, [.voidPtr, .voidPtr]⟩,
  ⟨"PrintingTools_RunModalPrintOperation", .cint, [.voidPtr]⟩,
  ⟨"PrintingTools_RunPdfPrintOperation", .cint, [.constVoidPtr, .cint, .cint]⟩,
  ⟨"PrintingTools_RunVectorPreview", .cint, [.constVoidPtr]⟩,
  ⟨"PrintingTools_GetPreviewView", .voidPtr, [.voidPtr]⟩,
  ⟨"PrintingTools_CreateHostWindow", .voidPtr, [.cdouble, .cdouble]⟩,
  ⟨"PrintingTools_ShowWindow", .void, [.voidPtr]⟩,
  ⟨"PrintingTools_DestroyHostWindow", .void, [.voidPtr]⟩,
  ⟨"PrintingTools_CreateManagedPreviewHost", .voidPtr, []⟩,
  ⟨"PrintingTools_DestroyManagedPreviewHost", .void, [.voidPtr]⟩,
  ⟨"PrintingTools_GetManagedPreviewView", .voidPtr, [.voidPtr]⟩,
  ⟨"PrintingTools_UpdateManagedPreviewWithPdf", .void, [.voidPtr, .constVoidPtr, .cint, .cdouble]⟩,
  ⟨"PrintingTools_SetWindowContent", .void, [.voidPtr, .voidPtr]⟩,
  ⟨"PrintingTools_DrawBitmap", .void,
    [.voidPtr, .constVoidPtr, .cint, .cint, .cint,
     .cdouble, .cdouble, .cdouble, .cdouble, .cint, .cint]⟩]

/-- Look a declaration up by name in the header. -/
def declFor (n : String) : Option FunDecl :=
  bridgeDecls.find? (fun d => d.name == n)

/-- The return type the header declares for the named function. -/
def retTypeOf (n : String) : Option CType :=
  (declFor n).map FunDecl.ret

/-- The type the header declares for the named function's parameter at
position `i` (0-based). -/
def paramTypeOf (n : String) (i : Nat) : Option CType :=
  (declFor n).bind (fun d => d.params.get? i)

/-- A C function can report a failure to its caller through its return
value exactly when its return type is not `void`. -/
def canReportFailureViaReturn (n : String) : Bool :=
  match retTypeOf n with
  | some CType.void => false
  | some _ => true
  | none => false

/-- A value is representable in the C `int` type of this ABI (signed
32-bit) when it lies in `[-2^31, 2^31)`. -/
def int32Representable (v : Int) : Prop :=
  -(2 ^ 31) ≤ v ∧ v < 2 ^ 31

instance (v : Int) : Decidable (int32Representable v) := by
  unfold int32Representable
  infer_instance

/-- The error taxonomy of the design (spec §7). -/
inductive BridgeError where
  | contractViolation
  | userCancelled
  | documentInvalid
  | nativeSubsystemFailure
deriving DecidableEq

/-- Lifecycle states of a print operation (spec §4.1). -/
inductive LifeState where
  | created
  | previewing
  | dialogShown
  | committed
  | cancelled
  | disposed
deriving DecidableEq

/-- Modelled from the spec: the implementation translation unit behind
`PrintingToolsMacBridge.h` is not in the source snapshot; this is the
PrintOperation record of spec §3 — lifecycle state, the caller-supplied
opaque context (a key, non-null by construction), the lazily created
preview view handle, and a count of dialogs shown so far. -/
structure PrintOp where
  context : Nat
  lifecycle : LifeState
  previewView : Option Nat
  dialogs : Nat
deriving DecidableEq

/-- How the user (or the native subsystem) resolves a modal interaction:
the tri-state outcome of spec §4.1, plus a native-failure outcome. -/
inductive PanelChoice where
  | cancel
  | confirmPrint
  | confirmPreview
  | nativeFailure
deriving DecidableEq

/-- Integer code: the user cancelled the dialog. -/
def rcCancelled : Int := 0

/-- Integer code: the user confirmed printing. -/
def rcConfirmedPrint : Int := 1

/-- Integer code: the user confirmed preview. -/
def rcConfirmedPreview : Int := 2

/-- Integer code: error sentinel, distinct from every success code. -/
def rcError : Int := -1

/-- Integer code: overall success of a one-shot driver. -/
def rcSuccess : Int := 1

/-- Integer code: the supplied document could not be parsed or rendered
(DocumentInvalid class). -/
def rcDocumentInvalid : Int := -2

/-- The small-integer code a dialog call returns for each outcome. -/
def panelResultCode (c : PanelChoice) : Int :=
  match c with
  | .cancel => rcCancelled
  | .confirmPrint => rcConfirmedPrint
  | .confirmPreview => rcConfirmedPreview
  | .nativeFailure => rcError

/-- States from which a dialog or a commit may be driven (spec §4.1 state
diagram: `Created`, `Previewing`, `DialogShown`). -/
def dialogReady (s : LifeState) : Bool :=
  s = LifeState.created || s = LifeState.previewing || s = LifeState.dialogShown

/-- Modelled from the spec: §4.1 Create(context) — a non-null context
yields a fresh operation in state `Created` with no preview view and no
dialogs shown; a null context is a caller contract violation. -/
def CreatePrintOperation (context : Option Nat) : Except BridgeError PrintOp :=
  match context with
  | none => .error .contractViolation
  | some c => .ok { context := c, lifecycle := .created, previewView := none, dialogs := 0 }

/-- Modelled from the spec: §4.1 BeginPreview — transitions
`Created → Previewing` and lazily creates the preview view if absent;
the handle, once created, never changes. -/
def BeginPreview (o : PrintOp) : Except BridgeError PrintOp :=
  if o.lifecycle = .created ∨ o.lifecycle = .previewing then
    .ok { o with lifecycle := .previewing,
                 previewView := some (o.previewView.getD (o.context + 1)) }
  else .error .contractViolation

/-- Modelled from the spec: §4.1 CommitPrint — transitions
`Previewing|Created` (or `DialogShown` after a confirmed dialog) to the
terminal success state `Committed`; any other state is a contract
violation. -/
def CommitPrint (o : PrintOp) : Except BridgeError PrintOp :=
  if dialogReady o.lifecycle then
    .ok { o with lifecycle := .committed }
  else .error .contractViolation

/-- The lifecycle state after a print-panel dialog resolves: cancel is
terminal (`Cancelled`, spec §8 scenario), a confirmation moves to
`DialogShown`, a native failure leaves the state unchanged. -/
def panelTransition (s : LifeState) (c : PanelChoice) : LifeState :=
  match c with
  | .cancel => .cancelled
  | .confirmPrint => .dialogShown
  | .confirmPreview => .dialogShown
  | .nativeFailure => s

/-- Modelled from the spec: §4.1 ShowPrintPanel — presents the modal
print dialog from a dialog-ready state and returns the tri-state result
as a small integer; on a committed, cancelled or disposed operation it is
a contract violation. -/
def ShowPrintPanel (o : PrintOp) (c : PanelChoice) : Except BridgeError (PrintOp × Int) :=
  if dialogReady o.lifecycle then
    .ok ({ o with lifecycle := panelTransition o.lifecycle c, dialogs := o.dialogs + 1 },
         panelResultCode c)
  else .error .contractViolation

/-- Modelled from the spec: §4.1 ShowPrintPanelSheet — like
`ShowPrintPanel` but anchored to a host window; a null window is a
contract violation. -/
def ShowPrintPanelSheet (o : PrintOp) (window : Option Nat) (c : PanelChoice) :
    Except BridgeError (PrintOp × Int) :=
  match window with
  | none => .error .contractViolation
  | some _ => ShowPrintPanel o c

/-- Modelled from the spec: §4.1 ShowPageLayout — presents the page-setup
dialog; returns the same tri-state-style code, scoped to layout
acceptance, leaving the lifecycle state unchanged. -/
def ShowPageLayout (o : PrintOp) (c : PanelChoice) : Except BridgeError (PrintOp × Int) :=
  if dialogReady o.lifecycle then
    .ok ({ o with dialogs := o.dialogs + 1 }, panelResultCode c)
  else .error .contractViolation

/-- Modelled from the spec: §4.1 GetPrintInfo — copies the settings out,
signalling success, for any live operation. -/
def GetPrintInfo (o : PrintOp) : Except BridgeError (PrintOp × Int) :=
  if o.lifecycle = .disposed then .error .contractViolation
  else .ok (o, rcSuccess)

/-- Modelled from the spec: §4.1 RunModalPrintOperation — runs dialog and
spooling to completion from `Created` or `Previewing`; commits on
confirmation, cancels on cancel, reports the error sentinel on a native
failure. -/
def RunModalPrintOperation (o : PrintOp) (c : PanelChoice) :
    Except BridgeError (PrintOp × Int) :=
  if o.lifecycle = .created ∨ o.lifecycle = .previewing then
    match c with
    | .cancel => .ok ({ o with lifecycle := .cancelled, dialogs := o.dialogs + 1 }, rcCancelled)
    | .nativeFailure => .ok ({ o with dialogs := o.dialogs + 1 }, rcError)
    | .confirmPrint => .ok ({ o with lifecycle := .committed, dialogs := o.dialogs + 1 }, rcSuccess)
    | .confirmPreview => .ok ({ o with lifecycle := .committed, dialogs := o.dialogs + 1 }, rcSuccess)
  else .error .contractViolation

/-- Modelled from the spec: §4.1 Dispose — terminal from any live state,
releasing the preview view; double dispose is a contract violation. -/
def DisposePrintOperation (o : PrintOp) : Except BridgeError PrintOp :=
  if o.lifecycle = .disposed then .error .contractViolation
  else .ok { o with lifecycle := .disposed, previewView := none }

/-- Modelled from the spec: §4.1 GetPreviewView — pure query for the
lazily created preview view handle (`none` models a null return). -/
def GetPreviewView (o : PrintOp) : Option Nat :=
  o.previewView

/-- One call a caller can make on a print operation handle. -/
inductive OpCall where
  | beginPreview
  | commitPrint
  | showPrintPanel (c : PanelChoice)
  | showPrintPanelSheet (window : Option Nat) (c : PanelChoice)
  | showPageLayout (c : PanelChoice)
  | getPrintInfo
  | runModal (c : PanelChoice)
  | dispose
deriving DecidableEq

/-- The state transition a single call performs (dropping the integer
result where there is one). -/
def applyCall (o : PrintOp) : OpCall → Except BridgeError PrintOp
  | .beginPreview => BeginPreview o
  | .commitPrint => CommitPrint o
  | .showPrintPanel c => (ShowPrintPanel o c).map Prod.fst
  | .showPrintPanelSheet w c => (ShowPrintPanelSheet o w c).map Prod.fst
  | .showPageLayout c => (ShowPageLayout o c).map Prod.fst
  | .getPrintInfo => (GetPrintInfo o).map Prod.fst
  | .runModal c => (RunModalPrintOperation o c).map Prod.fst
  | .dispose => DisposePrintOperation o

/-- Run a sequence of calls on an operation, stopping at the first
failure. -/
def runCalls (o : PrintOp) : List OpCall → Except BridgeError PrintOp
  | [] => .ok o
  | c :: cs =>
    match applyCall o c with
    | .error e => .error e
    | .ok o₁ => runCalls o₁ cs

/-- Modelled from the spec: §4.2 demands that a buffer be "a complete,
valid document"; the native parser is not in the snapshot, so validity is
operationalised as carrying the standard 4-byte PDF magic: the buffer is
non-empty and begins with the bytes of `%PDF`.  A zero-length buffer is
never valid. -/
def isValidPdf (data : List Nat) : Bool :=
  decide (4 ≤ data.length) && data.take 4 == [0x25, 0x50, 0x44, 0x46]

/-- Modelled from the spec: §4.2 RunPdfPrintOperation — a zero-length,
mismatched-length, negative-length or malformed buffer fails with the
document-invalid code; otherwise the outcome follows the (optional)
dialog resolution.  Total: it never crashes. -/
def RunPdfPrintOperation (pdfData : List Nat) (length : Int) (showPrintPanel : Bool)
    (c : PanelChoice) : Int :=
  if length ≤ 0 ∨ length ≠ (pdfData.length : Int) ∨ isValidPdf pdfData = false then
    rcDocumentInvalid
  else if showPrintPanel then
    match c with
    | .cancel => rcCancelled
    | .nativeFailure => rcError
    | .confirmPrint => rcSuccess
    | .confirmPreview => rcSuccess
  else
    match c with
    | .nativeFailure => rcError
    | _ => rcSuccess

/-- Modelled from the spec: the ManagedPreviewHost of §3/§4.3 — a stable
native view handle plus the currently rendered content, which is the last
successfully supplied PDF buffer together with its DPI (content is
replaced, never accumulated). -/
structure PreviewHost where
  view : Nat
  content : Option (List Nat × Rat)
deriving DecidableEq

/-- Modelled from the spec: §4.3 GetPreviewView on a host — the view
handle, stable for the host's lifetime. -/
def GetManagedPreviewView (h : PreviewHost) : Nat :=
  h.view

/-- Modelled from the spec: §4.3 UpdatePreview — non-positive DPI is a
contract violation; a zero-length, mismatched-length, negative-length or
malformed buffer fails with the document-invalid condition leaving the
prior content untouched; otherwise the content is replaced.  The second
component is the error condition the call signals, if any. -/
def UpdateManagedPreviewWithPdf (h : PreviewHost) (data : List Nat) (length : Int)
    (dpi : Rat) : PreviewHost × Option BridgeError :=
  if dpi ≤ 0 then (h, some .contractViolation)
  else if length ≤ 0 ∨ length ≠ (data.length : Int) ∨ isValidPdf data = false then
    (h, some .documentInvalid)
  else ({ h with content := some (data, dpi) }, none)

/-- Modelled from the spec: the HostWindow of §3/§4.4 — size fixed at
creation, owning at most one attached content view. -/
structure HostWindow where
  width : Rat
  height : Rat
  content : Option Nat
deriving DecidableEq

/-- A host window together with the set of view handles destroyed so far:
the observable needed to separate "detached" from "destroyed". -/
structure WinState where
  window : HostWindow
  destroyed : List Nat
deriving DecidableEq

/-- Modelled from the spec: §4.4 SetContent — attaches the view as the
window's sole content, detaching (never destroying) any previous content
view. -/
def SetWindowContent (st : WinState) (view : Nat) : WinState :=
  { st with window := { st.window with content := some view } }

/-- Modelled from the spec: the §4.5 compositor's coordinate map — a
source sample point `(sx, sy)` of a `width × height` buffer lands at
`(x + sx·w/width, y + sy·h/height)` of the destination rectangle:
horizontal and vertical scale factors are independent (anisotropic), no
aspect-ratio correction or letterboxing is applied. -/
def drawBitmapMap (width height : Rat) (x y w h : Rat) (sx sy : Rat) : Rat × Rat :=
  (x + sx * w / width, y + sy * h / height)

/-- Membership of a sample point in the source pixel rectangle
`[0, width] × [0, height]`. -/
def inSourceRect (width height sx sy : Rat) : Prop :=
  0 ≤ sx ∧ sx ≤ width ∧ 0 ≤ sy ∧ sy ≤ height

/-- Membership of a point in the destination rectangle
`[x, x+w] × [y, y+h]`. -/
def inDestRect (x y w h : Rat) (q : Rat × Rat) : Prop :=
  x ≤ q.1 ∧ q.1 ≤ x + w ∧ y ≤ q.2 ∧ q.2 ≤ y + h

lemma applyCall_ok_not_disposed {o o₁ : PrintOp} {c : OpCall}
    (h : applyCall o c = .ok o₁) : o.lifecycle ≠ .disposed := by
  intro hd
  cases c with
  | showPrintPanelSheet w pc =>
      cases w <;>
        simp [applyCall, ShowPrintPanelSheet, ShowPrintPanel, dialogReady, hd,
          Except.map] at h
  | beginPreview =>
      simp [applyCall, BeginPreview, hd] at h
  | commitPrint =>
      simp [applyCall, CommitPrint, dialogReady, hd] at h
  | showPrintPanel pc =>
      simp [applyCall, ShowPrintPanel, dialogReady, hd, Except.map] at h
  | showPageLayout pc =>
      simp [applyCall, ShowPageLayout, dialogReady, hd, Except.map] at h
  | getPrintInfo =>
      simp [applyCall, GetPrintInfo, hd, Except.map] at h
  | runModal pc =>
      simp [applyCall, RunModalPrintOperation, hd, Except.map] at h
  | dispose =>
      simp [applyCall, DisposePrintOperation, hd] at h

lemma applyCall_previewView {o o₁ : PrintOp} {c : OpCall}
    (h : applyCall o c = .ok o₁) (hnd : o₁.lifecycle ≠ .disposed) :
    (o₁.previewView = none ↔ (o.previewView = none ∧ c ≠ OpCall.beginPreview)) ∧
    (∀ v, o.previewView = some v → o₁.previewView = some v) := by
  cases c with
  | beginPreview =>
      rw [applyCall, BeginPreview] at h
      split at h
      · simp only [Except.ok.injEq] at h
        subst h
        refine ⟨by simp, ?_⟩
        intro v hv
        simp [hv]
      · exact absurd h (by simp)
  | commitPrint =>
      rw [applyCall, CommitPrint] at h
      split at h
      · simp only [Except.ok.injEq] at h
        subst h
        simp
      · exact absurd h (by simp)
  | showPrintPanel pc =>
      rw [applyCall, ShowPrintPanel] at h
      split at h
      · simp only [Except.map, Except.ok.injEq] at h
        subst h
        simp
      · exact absurd h (by simp [Except.map])
  | showPrintPanelSheet w pc =>
      rw [applyCall] at h
      cases w with
      | none => exact absurd h (by simp [ShowPrintPanelSheet, Except.map])
      | some wv =>
          simp only [ShowPrintPanelSheet, ShowPrintPanel] at h
          split at h
          · simp only [Except.map, Except.ok.injEq] at h
            subst h
            simp
          · exact absurd h (by simp [Except.map])
  | showPageLayout pc =>
      rw [applyCall, ShowPageLayout] at h
      split at h
      · simp only [Except.map, Except.ok.injEq] at h
        subst h
        simp
      · exact absurd h (by simp [Except.map])
  | getPrintInfo =>
      rw [applyCall, GetPrintInfo] at h
      split at h
      · exact absurd h (by simp [Except.map])
      · simp only [Except.map, Except.ok.injEq] at h
        subst h
        simp
  | runModal pc =>
      rw [applyCall, RunModalPrintOperation.eq_def] at h
      split at h
      · cases pc <;>
          (simp only [Except.map, Except.ok.injEq] at h
           subst h
           simp)
      · exact absurd h (by simp [Except.map])
  | dispose =>
      rw [applyCall, DisposePrintOperation] at h
      split at h
      · exact absurd h (by simp)
      · simp only [Except.ok.injEq] at h
        subst h
        exact absurd rfl hnd

lemma runCalls_start_not_disposed {o o' : PrintOp} {cs : List OpCall}
    (h : runCalls o cs = .ok o') (hnd : o'.lifecycle ≠ .disposed) :
    o.lifecycle ≠ .disposed := by
  cases cs with
  | nil =>
      simp only [runCalls, Except.ok.injEq] at h
      subst h
      exact hnd
  | cons c cs =>
      simp only [runCalls] at h
      cases hc : applyCall o c with
      | error e => rw [hc] at h; simp at h
      | ok o₁ => exact applyCall_ok_not_disposed hc

lemma runCalls_previewView {o o' : PrintOp} {cs : List OpCall}
    (h : runCalls o cs = .ok o') (hnd : o'.lifecycle ≠ .disposed) :
    (o'.previewView = none ↔ (o.previewView = none ∧ OpCall.beginPreview ∉ cs)) ∧
    (∀ v, o.previewView = some v → o'.previewView = some v) := by
  induction cs generalizing o with
  | nil =>
      simp only [runCalls, Except.ok.injEq] at h
      subst h
      simp
  | cons c cs ih =>
      simp only [runCalls] at h
      cases hc : applyCall o c with
      | error e => rw [hc] at h; simp at h
      | ok o₁ =>
          rw [hc] at h
          have h₁nd : o₁.lifecycle ≠ .disposed := runCalls_start_not_disposed h hnd
          have step := applyCall_previewView hc h₁nd
          have rest := ih h
          refine ⟨?_, ?_⟩
          · rw [rest.1, step.1, List.mem_cons, not_or]
            constructor
            · rintro ⟨⟨h1, h2⟩, h3⟩
              exact ⟨h1, fun he => h2 he.symm, h3⟩
            · rintro ⟨h1, h2, h3⟩
              exact ⟨⟨h1, fun he => h2 he.symm⟩, h3⟩
          · intro v hv
            exact rest.2 v (step.2 v hv)

/-- **C1** (counterexample): the claim says every error kind surfaces
through the return value of the call that triggered it, and in particular
that `CommitPrint`, `BeginPreview` and `UpdateManagedPreviewWithPdf` can
report a failure through their return value.  The header declares all
three with return type `void`, so none of them can report anything
through its return value: the claim as stated is false. -/
theorem C1_void_returns_counterexample :
    canReportFailureViaReturn "PrintingTools_CommitPrint" = false ∧
    canReportFailureViaReturn "PrintingTools_BeginPreview" = false ∧
    canReportFailureViaReturn "PrintingTools_UpdateManagedPreviewWithPdf" = false ∧
    retTypeOf "PrintingTools_CommitPrint" = some CType.void ∧
    retTypeOf "PrintingTools_BeginPreview" = some CType.void ∧
    retTypeOf "PrintingTools_UpdateManagedPreviewWithPdf" = some CType.void :=
  ⟨rfl, rfl, rfl, rfl, rfl, rfl⟩

/-- **C1** (amended): errors surface synchronously through the return
value only for the bridge operations the header declares with a non-void
return type — the seven int-returning calls can report a failure to the
caller, while `CommitPrint`, `BeginPreview` and
`UpdateManagedPreviewWithPdf` are declared `void` and cannot. -/
theorem C1_error_reporting_amended :
    canReportFailureViaReturn "PrintingTools_ShowPrintPanel" = true ∧
    canReportFailureViaReturn "PrintingTools_ShowPrintPanelSheet" = true ∧
    canReportFailureViaReturn "PrintingTools_ShowPageLayout" = true ∧
    canReportFailureViaReturn "PrintingTools_GetPrintInfo" = true ∧
    canReportFailureViaReturn "PrintingTools_RunModalPrintOperation" = true ∧
    canReportFailureViaReturn "PrintingTools_RunPdfPrintOperation" = true ∧
    canReportFailureViaReturn "PrintingTools_RunVectorPreview" = true ∧
    canReportFailureViaReturn "PrintingTools_CommitPrint" = false ∧
    canReportFailureViaReturn "PrintingTools_BeginPreview" = false ∧
    canReportFailureViaReturn "PrintingTools_UpdateManagedPreviewWithPdf" = false :=
  ⟨rfl, rfl, rfl, rfl, rfl, rfl, rfl, rfl, rfl, rfl⟩

/-- **C9**: `Create` with a non-null context returns a fresh operation in
state `Created`, with no preview view and no dialogs shown; a null
context is a contract violation, not a recoverable error. -/
theorem C9_create_fresh_operation (ctx : Nat) :
    (∃ o, CreatePrintOperation (some ctx) = .ok o ∧
        o.lifecycle = .created ∧ o.dialogs = 0 ∧ o.previewView = none) ∧
    CreatePrintOperation none = .error .contractViolation :=
  ⟨⟨_, rfl, rfl, rfl, rfl⟩, rfl⟩

/-- **C3**: for every buffer, `RunPdfPrintOperation` with length zero
returns the DocumentInvalid-class failure code, never the success code
and never the cancel code; the function is total, so it cannot crash. -/
theorem C3_zero_length_document_invalid (pdfData : List Nat) (showPanel : Bool)
    (c : PanelChoice) :
    RunPdfPrintOperation pdfData 0 showPanel c = rcDocumentInvalid ∧
    RunPdfPrintOperation pdfData 0 showPanel c ≠ rcSuccess ∧
    RunPdfPrintOperation pdfData 0 showPanel c ≠ rcCancelled := by
  have hmain : RunPdfPrintOperation pdfData 0 showPanel c = rcDocumentInvalid := by
    rw [RunPdfPrintOperation.eq_def, if_pos (Or.inl le_rfl)]
  exact ⟨hmain, by rw [hmain]; decide, by rw [hmain]; decide⟩

/-- **C10**: the length parameters of `RunPdfPrintOperation` (parameter 1)
and `UpdateManagedPreviewWithPdf` (parameter 2) are C `int`, a signed
32-bit type in this ABI: `-1` is representable and `2^31` is not; and for
every negative length both calls behave as an invalid document —
`RunPdfPrintOperation` returns the document-invalid code and
`UpdateManagedPreviewWithPdf` signals document-invalid leaving the host
unchanged. -/
theorem C10_signed_length_behaviour (pdfData : List Nat) (showPanel : Bool)
    (c : PanelChoice) (host : PreviewHost) (len : Int) (dpi : Rat)
    (hneg : len < 0) (hdpi : 0 < dpi) :
    paramTypeOf "PrintingTools_RunPdfPrintOperation" 1 = some CType.cint ∧
    paramTypeOf "PrintingTools_UpdateManagedPreviewWithPdf" 2 = some CType.cint ∧
    int32Representable (-1) ∧ ¬ int32Representable (2 ^ 31) ∧
    RunPdfPrintOperation pdfData len showPanel c = rcDocumentInvalid ∧
    UpdateManagedPreviewWithPdf host pdfData len dpi =
      (host, some BridgeError.documentInvalid) := by
  refine ⟨rfl, rfl, by decide, by decide, ?_, ?_⟩
  · rw [RunPdfPrintOperation.eq_def, if_pos (Or.inl hneg.le)]
  · rw [UpdateManagedPreviewWithPdf, if_neg (not_le.mpr hdpi), if_pos (Or.inl hneg.le)]

/-- Witness for C10 at length `-3`, DPI `72`. -/
theorem C10_signed_length_behaviour_witness :
    paramTypeOf "PrintingTools_RunPdfPrintOperation" 1 = some CType.cint ∧
    paramTypeOf "PrintingTools_UpdateManagedPreviewWithPdf" 2 = some CType.cint ∧
    int32Representable (-1) ∧ ¬ int32Representable (2 ^ 31) ∧
    RunPdfPrintOperation [] (-3) true PanelChoice.confirmPrint = rcDocumentInvalid ∧
    UpdateManagedPreviewWithPdf ⟨7, none⟩ [] (-3) 72 =
      (⟨7, none⟩, some BridgeError.documentInvalid) :=
  C10_signed_length_behaviour [] true PanelChoice.confirmPrint ⟨7, none⟩ (-3) 72
    (by decide) (by norm_num)

/-- **C2**: for an operation freshly created by `Create` and driven
through any successful sequence of calls that leaves it undisposed,
`GetPreviewView` returns a non-null handle iff `BeginPreview` has been
called at least once; and once `BeginPreview` has been called, every
later point of the operation's life observes the same stable non-null
handle. -/
theorem C2_previewView_iff_begin_and_stable
    (ctx : Nat) (calls more : List OpCall) (o₀ o₁ o₂ : PrintOp)
    (h0 : CreatePrintOperation (some ctx) = .ok o₀)
    (h1 : runCalls o₀ calls = .ok o₁)
    (hl1 : o₁.lifecycle ≠ .disposed)
    (h2 : runCalls o₁ more = .ok o₂)
    (hl2 : o₂.lifecycle ≠ .disposed) :
    (GetPreviewView o₁ ≠ none ↔ OpCall.beginPreview ∈ calls) ∧
    (OpCall.beginPreview ∈ calls →
      GetPreviewView o₂ = GetPreviewView o₁ ∧ GetPreviewView o₁ ≠ none) := by
  have h00 : o₀.previewView = none := by
    rw [CreatePrintOperation] at h0
    simp only [Except.ok.injEq] at h0
    subst h0
    rfl
  have r1 := runCalls_previewView h1 hl1
  have r2 := runCalls_previewView h2 hl2
  have key : o₁.previewView = none ↔ OpCall.beginPreview ∉ calls := by
    rw [r1.1, h00]
    simp
  refine ⟨?_, ?_⟩
  · rw [GetPreviewView]
    constructor
    · intro hne
      by_contra hmem
      exact hne (key.mpr hmem)
    · intro hmem hnone
      exact (key.mp hnone) hmem
  · intro hmem
    have hne : o₁.previewView ≠ none := fun hn => (key.mp hn) hmem
    obtain ⟨v, hv⟩ := Option.ne_none_iff_exists'.mp hne
    refine ⟨?_, ?_⟩
    · rw [GetPreviewView, GetPreviewView, r2.2 v hv, hv]
    · rw [GetPreviewView]
      exact hne

/-- Witness for C2: context 5, `BeginPreview` then `ShowPageLayout`. -/
theorem C2_previewView_iff_begin_and_stable_witness :
    (GetPreviewView ⟨5, .previewing, some 6, 0⟩ ≠ none ↔
        OpCall.beginPreview ∈ [OpCall.beginPreview]) ∧
    (OpCall.beginPreview ∈ [OpCall.beginPreview] →
      GetPreviewView ⟨5, .previewing, some 6, 1⟩ = GetPreviewView ⟨5, .previewing, some 6, 0⟩ ∧
      GetPreviewView ⟨5, .previewing, some 6, 0⟩ ≠ none) :=
  C2_previewView_iff_begin_and_stable 5 [OpCall.beginPreview]
    [OpCall.showPageLayout PanelChoice.confirmPrint]
    ⟨5, .created, none, 0⟩ ⟨5, .previewing, some 6, 0⟩ ⟨5, .previewing, some 6, 1⟩
    (by rfl) (by rfl) (by simp) (by rfl) (by simp)

/-- **C4**: for every preview host, DPI in contract, and malformed PDF
buffer, `UpdatePreview` signals the document-invalid condition and leaves
the host observably unchanged: both the view handle and the rendered
content after the failed call are exactly what they were before it. -/
theorem C4_update_preview_atomic_on_failure
    (host : PreviewHost) (data : List Nat) (length : Int) (dpi : Rat)
    (hdpi : 0 < dpi) (hbad : isValidPdf data = false) :
    UpdateManagedPreviewWithPdf host data length dpi =
      (host, some BridgeError.documentInvalid) ∧
    GetManagedPreviewView (UpdateManagedPreviewWithPdf host data length dpi).1 =
      GetManagedPreviewView host ∧
    (UpdateManagedPreviewWithPdf host data length dpi).1.content = host.content := by
  have hmain : UpdateManagedPreviewWithPdf host data length dpi =
      (host, some BridgeError.documentInvalid) := by
    rw [UpdateManagedPreviewWithPdf, if_neg (not_le.mpr hdpi),
      if_pos (Or.inr (Or.inr hbad))]
  exact ⟨hmain, by rw [hmain], by rw [hmain]⟩

/-- Witness for C4: a host showing a previously rendered page, updated
with the malformed buffer `[0, 1]` at 72 DPI. -/
theorem C4_update_preview_atomic_on_failure_witness :
    UpdateManagedPreviewWithPdf ⟨7, some ([0x25, 0x50, 0x44, 0x46], 72)⟩ [0, 1] 2 72 =
      (⟨7, some ([0x25, 0x50, 0x44, 0x46], 72)⟩, some BridgeError.documentInvalid) ∧
    GetManagedPreviewView
        (UpdateManagedPreviewWithPdf ⟨7, some ([0x25, 0x50, 0x44, 0x46], 72)⟩ [0, 1] 2 72).1 =
      GetManagedPreviewView ⟨7, some ([0x25, 0x50, 0x44, 0x46], 72)⟩ ∧
    (UpdateManagedPreviewWithPdf ⟨7, some ([0x25, 0x50, 0x44, 0x46], 72)⟩ [0, 1] 2 72).1.content =
      (⟨7, some ([0x25, 0x50, 0x44, 0x46], 72)⟩ : PreviewHost).content :=
  C4_update_preview_atomic_on_failure ⟨7, some ([0x25, 0x50, 0x44, 0x46], 72)⟩ [0, 1] 2 72
    (by norm_num) (by decide)

/-- **C5**: from state `Previewing` or `Created`, `CommitPrint` moves the
operation to the terminal state `Committed`; afterwards `BeginPreview`,
`ShowPrintPanel`, `ShowPrintPanelSheet`, `ShowPageLayout`, a second
`CommitPrint` and `RunModalPrintOperation` are all contract violations —
never a fresh commit — while `Dispose` still succeeds. -/
theorem C5_commit_terminal (o : PrintOp) (w : Nat) (c : PanelChoice)
    (h : o.lifecycle = .previewing ∨ o.lifecycle = .created) :
    ∃ o₁, CommitPrint o = .ok o₁ ∧ o₁.lifecycle = .committed ∧
      BeginPreview o₁ = .error .contractViolation ∧
      ShowPrintPanel o₁ c = .error .contractViolation ∧
      ShowPrintPanelSheet o₁ (some w) c = .error .contractViolation ∧
      ShowPageLayout o₁ c = .error .contractViolation ∧
      CommitPrint o₁ = .error .contractViolation ∧
      RunModalPrintOperation o₁ c = .error .contractViolation ∧
      ∃ o₂, DisposePrintOperation o₁ = .ok o₂ ∧ o₂.lifecycle = .disposed := by
  have ho₁ : CommitPrint o = .ok { o with lifecycle := .committed } := by
    rcases h with h | h <;> simp [CommitPrint, dialogReady, h]
  refine ⟨{ o with lifecycle := .committed }, ho₁, rfl, ?_, ?_, ?_, ?_, ?_, ?_, ?_⟩
  · simp [BeginPreview]
  · simp [ShowPrintPanel, dialogReady]
  · simp [ShowPrintPanelSheet, ShowPrintPanel, dialogReady]
  · simp [ShowPageLayout, dialogReady]
  · simp [CommitPrint, dialogReady]
  · simp [RunModalPrintOperation]
  · refine ⟨{ o with lifecycle := .disposed, previewView := none }, ?_, rfl⟩
    simp [DisposePrintOperation]

/-- Witness for C5: a freshly created operation, window 2, the cancel
outcome. -/
theorem C5_commit_terminal_witness :
    ∃ o₁, CommitPrint ⟨1, .created, none, 0⟩ = .ok o₁ ∧ o₁.lifecycle = .committed ∧
      BeginPreview o₁ = .error .contractViolation ∧
      ShowPrintPanel o₁ PanelChoice.cancel = .error .contractViolation ∧
      ShowPrintPanelSheet o₁ (some 2) PanelChoice.cancel = .error .contractViolation ∧
      ShowPageLayout o₁ PanelChoice.cancel = .error .contractViolation ∧
      CommitPrint o₁ = .error .contractViolation ∧
      RunModalPrintOperation o₁ PanelChoice.cancel = .error .contractViolation ∧
      ∃ o₂, DisposePrintOperation o₁ = .ok o₂ ∧ o₂.lifecycle = .disposed :=
  C5_commit_terminal ⟨1, .created, none, 0⟩ 2 PanelChoice.cancel (Or.inr rfl)

/-- All four dialog outcome codes, as a disjunction. -/
def triStateOrError (k : Int) : Prop :=
  k = rcCancelled ∨ k = rcConfirmedPrint ∨ k = rcConfirmedPreview ∨ k = rcError

lemma panelResultCode_triState (c : PanelChoice) : triStateOrError (panelResultCode c) := by
  cases c <;> simp [triStateOrError, panelResultCode]

/-- **C6**: whenever `ShowPrintPanel`, `ShowPrintPanelSheet` (with a valid
window) or `ShowPageLayout` returns a code to its caller, that code is
one of exactly `{Cancelled, ConfirmedPrint, ConfirmedPreview}` or the
error sentinel, and the four codes are pairwise distinct, so the
success/cancel/error distinction is preserved in the returned integer. -/
theorem C6_dialogs_tri_state (o : PrintOp) (w : Nat) (c₁ c₂ c₃ : PanelChoice)
    (p₁ p₂ p₃ : PrintOp) (k₁ k₂ k₃ : Int)
    (h1 : ShowPrintPanel o c₁ = .ok (p₁, k₁))
    (h2 : ShowPrintPanelSheet o (some w) c₂ = .ok (p₂, k₂))
    (h3 : ShowPageLayout o c₃ = .ok (p₃, k₃)) :
    (triStateOrError k₁ ∧ triStateOrError k₂ ∧ triStateOrError k₃) ∧
    (rcError ≠ rcCancelled ∧ rcError ≠ rcConfirmedPrint ∧ rcError ≠ rcConfirmedPreview ∧
     rcCancelled ≠ rcConfirmedPrint ∧ rcCancelled ≠ rcConfirmedPreview ∧
     rcConfirmedPrint ≠ rcConfirmedPreview) := by
  have e1 : k₁ = panelResultCode c₁ := by
    rw [ShowPrintPanel] at h1
    split at h1
    · simp only [Except.ok.injEq, Prod.mk.injEq] at h1
      exact h1.2.symm
    · simp at h1
  have e2 : k₂ = panelResultCode c₂ := by
    simp only [ShowPrintPanelSheet, ShowPrintPanel] at h2
    split at h2
    · simp only [Except.ok.injEq, Prod.mk.injEq] at h2
      exact h2.2.symm
    · simp at h2
  have e3 : k₃ = panelResultCode c₃ := by
    rw [ShowPageLayout] at h3
    split at h3
    · simp only [Except.ok.injEq, Prod.mk.injEq] at h3
      exact h3.2.symm
    · simp at h3
  refine ⟨⟨?_, ?_, ?_⟩, by decide, by decide, by decide, by decide, by decide, by decide⟩
  · rw [e1]; exact panelResultCode_triState c₁
  · rw [e2]; exact panelResultCode_triState c₂
  · rw [e3]; exact panelResultCode_triState c₃

/-- Witness for C6 on a fresh operation: cancel, confirm-print and
confirm-preview outcomes. -/
theorem C6_dialogs_tri_state_witness :
    (triStateOrError 0 ∧ triStateOrError 1 ∧ triStateOrError 2) ∧
    (rcError ≠ rcCancelled ∧ rcError ≠ rcConfirmedPrint ∧ rcError ≠ rcConfirmedPreview ∧
     rcCancelled ≠ rcConfirmedPrint ∧ rcCancelled ≠ rcConfirmedPreview ∧
     rcConfirmedPrint ≠ rcConfirmedPreview) :=
  C6_dialogs_tri_state ⟨1, .created, none, 0⟩ 2
    PanelChoice.cancel PanelChoice.confirmPrint PanelChoice.confirmPreview
    ⟨1, .cancelled, none, 1⟩ ⟨1, .dialogShown, none, 1⟩ ⟨1, .created, none, 1⟩
    0 1 2 (by rfl) (by rfl) (by rfl)

lemma affine_scale_interval (wsrc dw d q : Rat) (hw : 0 < wsrc) (hdw : 0 ≤ dw) :
    (∃ t, 0 ≤ t ∧ t ≤ wsrc ∧ d + t * dw / wsrc = q) ↔ (d ≤ q ∧ q ≤ d + dw) := by
  constructor
  · rintro ⟨t, ht0, htw, rfl⟩
    have hnn : 0 ≤ t * dw / wsrc := by positivity
    have hub : t * dw / wsrc ≤ dw := by
      rw [div_le_iff₀ hw]
      nlinarith
    exact ⟨by linarith, by linarith⟩
  · rintro ⟨h1, h2⟩
    rcases eq_or_lt_of_le hdw with hdw0 | hdwpos
    · refine ⟨0, le_refl 0, le_of_lt hw, ?_⟩
      have hq : q = d := by
        rw [← hdw0] at h2
        linarith
      rw [hq]
      ring
    · have hw' : wsrc ≠ 0 := ne_of_gt hw
      have hdw' : dw ≠ 0 := ne_of_gt hdwpos
      refine ⟨(q - d) * wsrc / dw, ?_, ?_, ?_⟩
      · exact div_nonneg (mul_nonneg (by linarith) hw.le) hdwpos.le
      · rw [div_le_iff₀ hdwpos]
        nlinarith
      · field_simp

/-- **C7**: for a `width × height` source and a destination rectangle
with non-negative extents, the compositor's coordinate map carries the
source rectangle exactly onto the destination rectangle: a point is hit
by some source sample point iff it lies in `[destX, destX + destWidth] ×
[destY, destY + destHeight]`.  Width and height scale independently, so
no aspect ratio is preserved and no letterboxing occurs, whatever the
source aspect ratio. -/
theorem C7_anisotropic_exact_fill (width height x y w h : Rat) (q1 q2 : Rat)
    (hw : 0 < width) (hh : 0 < height) (hdw : 0 ≤ w) (hdh : 0 ≤ h) :
    (∃ sx sy, inSourceRect width height sx sy ∧
        drawBitmapMap width height x y w h sx sy = (q1, q2)) ↔
    inDestRect x y w h (q1, q2) := by
  rw [inDestRect]
  constructor
  · rintro ⟨sx, sy, ⟨hs1, hs2, hs3, hs4⟩, heq⟩
    rw [drawBitmapMap, Prod.mk.injEq] at heq
    have hx := (affine_scale_interval width w x q1 hw hdw).mp ⟨sx, hs1, hs2, heq.1⟩
    have hy := (affine_scale_interval height h y q2 hh hdh).mp ⟨sy, hs3, hs4, heq.2⟩
    exact ⟨hx.1, hx.2, hy.1, hy.2⟩
  · rintro ⟨hq1, hq2, hq3, hq4⟩
    obtain ⟨sx, hx0, hx1, hx2⟩ := (affine_scale_interval width w x q1 hw hdw).mpr ⟨hq1, hq2⟩
    obtain ⟨sy, hy0, hy1, hy2⟩ := (affine_scale_interval height h y q2 hh hdh).mpr ⟨hq3, hq4⟩
    exact ⟨sx, sy, ⟨hx0, hx1, hy0, hy1⟩, by rw [drawBitmapMap, hx2, hy2]⟩

/-- Witness for C7: a 4 × 2 source scaled 2× into the rectangle
`[0, 8] × [0, 4]`, probed at the point `(3, 1)`. -/
theorem C7_anisotropic_exact_fill_witness :
    (∃ sx sy, inSourceRect 4 2 sx sy ∧ drawBitmapMap 4 2 0 0 8 4 sx sy = (3, 1)) ↔
    inDestRect 0 0 8 4 (3, 1) :=
  C7_anisotropic_exact_fill 4 2 0 0 8 4 3 1
    (by norm_num) (by norm_num) (by norm_num) (by norm_num)

/-- **C8**: `SetContent` attaches the given view as the window's sole
content view (the most recently set one); the previously attached view is
detached — it is no longer the content — but not destroyed: the set of
destroyed views is untouched by the call. -/
theorem C8_set_content_detaches_not_destroys (st : WinState) (view pv : Nat)
    (hprev : st.window.content = some pv) :
    (SetWindowContent st view).window.content = some view ∧
    (SetWindowContent st view).destroyed = st.destroyed ∧
    (pv ∉ st.destroyed → pv ∉ (SetWindowContent st view).destroyed) ∧
    (pv ≠ view → (SetWindowContent st view).window.content ≠ some pv) := by
  refine ⟨rfl, rfl, fun hnd => hnd, ?_⟩
  intro hne hc
  simp only [SetWindowContent, Option.some.injEq] at hc
  exact hne hc.symm

/-- Witness for C8: a 400 × 300 window showing view 9, re-targeted to
view 11. -/
theorem C8_set_content_detaches_not_destroys_witness :
    (SetWindowContent ⟨⟨400, 300, some 9⟩, []⟩ 11).window.content = some 11 ∧
    (SetWindowContent ⟨⟨400, 300, some 9⟩, []⟩ 11).destroyed =
      (⟨⟨400, 300, some 9⟩, []⟩ : WinState).destroyed ∧
    ((9 : Nat) ∉ (⟨⟨400, 300, some 9⟩, []⟩ : WinState).destroyed →
      (9 : Nat) ∉ (SetWindowContent ⟨⟨400, 300, some 9⟩, []⟩ 11).destroyed) ∧
    ((9 : Nat) ≠ 11 → (SetWindowContent ⟨⟨400, 300, some 9⟩, []⟩ 11).window.content ≠ some 9) :=
  C8_set_content_detaches_not_destroys ⟨⟨400, 300, some 9⟩, []⟩ 11 9 rfl

end PrintingTools
